import Mathlib

/-!
Shallow embedding of the Dog_Care-AI repository (a Django REST pet-health
API) for checking its natural-language specification.

Conventions of the embedding:
* Dates are modelled as `Int` day numbers; `today` is passed explicitly
  wherever the source calls `timezone.now().date()`, and `now` (a timestamp,
  also an `Int`) wherever it calls `timezone.now()`.
* Django's `full_clean`/`ValidationError` discipline is modelled with
  `Except VError`: a `save` that raises returns `.error`, a successful save
  returns the persisted record in `.ok`.
* `hasattr(obj, f)` on a heterogeneous model instance is modelled by an
  `Option`-valued field being `some`: `some x` means the attribute exists
  and references the user (or pet) `x`; `none` means the class has no such
  attribute.
* `request.user` is `Option User`: `none` is Django's anonymous user
  (`is_authenticated` false); a `some u` requester is authenticated.
-/

namespace DogCare

/-- A Django `ValidationError` keyed by a field name
(`raise ValidationError({field: msg})`). -/
structure VError where
  field : String
  deriving DecidableEq, Repr

/-- `User.Role` text choices from `apps/accounts/models.py`. -/
inductive Role where
  | ADMIN
  | USER
  deriving DecidableEq, Repr

/-- The fields of the `User` model (`apps/accounts/models.py`) that the
claims touch. `id` is the primary key; Django compares model instances by
primary key, so user equality below is `id` equality. -/
structure User where
  id : Nat
  email : String
  role : Role
  is_active : Bool
  is_veterinarian : Bool
  deriving DecidableEq, Repr

/-- A pet as referenced from permission objects: only its owner matters to
the permission checks (`obj.pet.owner == request.user`). -/
structure PetRef where
  owner : Nat
  deriving DecidableEq, Repr

/-- A heterogeneous object submitted to an object-level permission check.
Each `Option` field is `some` exactly when the Django model instance has
that attribute (`hasattr`), carrying the id of the referenced user
(respectively the referenced pet). -/
structure PermObj where
  owner : Option Nat
  user : Option Nat
  created_by : Option Nat
  pet : Option PetRef
  deriving DecidableEq, Repr

/-- `IsOwnerOrAdmin.has_object_permission` from
`apps/accounts/permissions.py` lines 63-83: admin passes; otherwise the
first attribute present among `owner`, `user`, `created_by` is compared to
the requester; with none of them the check denies.  The requester is
`none` for an anonymous request. -/
def IsOwnerOrAdmin_has_object_permission (requester : Option User) (obj : PermObj) : Bool :=
  match requester with
  | none => false
  | some u =>
    if u.role = Role.ADMIN then true
    else if obj.owner.isSome then obj.owner = some u.id
    else if obj.user.isSome then obj.user = some u.id
    else if obj.created_by.isSome then obj.created_by = some u.id
    else false

/-- `IsPetOwnerOrAdmin.has_object_permission` from
`apps/accounts/permissions.py` lines 100-116: admin passes; otherwise a
`pet` attribute, if present, is decisive (`obj.pet.owner == request.user`);
else an `owner` attribute is decisive; else deny. -/
def IsPetOwnerOrAdmin_has_object_permission (requester : Option User) (obj : PermObj) : Bool :=
  match requester with
  | none => false
  | some u =>
    if u.role = Role.ADMIN then true
    else if obj.pet.isSome then (obj.pet.map PetRef.owner) = some u.id
    else if obj.owner.isSome then obj.owner = some u.id
    else false

/-- The granting condition exactly as the spec sentence words it: admin, or
the record's owning-user reference — direct `owner` or `user` field, or
transitively the owner of its `pet` — equals the requester. Written from
the spec, to be compared with the two checks above. -/
def specOwnershipGrant (u : User) (obj : PermObj) : Prop :=
  u.role = Role.ADMIN ∨ obj.owner = some u.id ∨ obj.user = some u.id ∨
    (obj.pet.map PetRef.owner) = some u.id

instance (u : User) (obj : PermObj) : Decidable (specOwnershipGrant u obj) := by
  unfold specOwnershipGrant; infer_instance

/-- Decidable equality for `Except`, so concrete runs of the embedded
`save`/endpoint functions can be checked by `decide`. -/
instance {e a : Type} [DecidableEq e] [DecidableEq a] : DecidableEq (Except e a) := fun x y =>
  match x, y with
  | .error u, .error v =>
    if h : u = v then .isTrue (by rw [h]) else .isFalse (by intro hc; cases hc; exact h rfl)
  | .error _, .ok _ => .isFalse (by intro hc; cases hc)
  | .ok _, .error _ => .isFalse (by intro hc; cases hc)
  | .ok u, .ok v =>
    if h : u = v then .isTrue (by rw [h]) else .isFalse (by intro hc; cases hc; exact h rfl)

/-! ### Subscriptions (`apps/subscriptions/models.py`) -/

/-- `UserSubscription.STATUS_CHOICES`. -/
inductive SubStatus where
  | active
  | expired
  | cancelled
  deriving DecidableEq, Repr

/-- The fields of `UserSubscription` the claims touch. `start_date` and
`end_date` are non-null `DateField`s, `cancelled_at` a nullable
`DateTimeField`. -/
structure UserSubscription where
  user : Nat
  start_date : Int
  end_date : Int
  status : SubStatus
  is_active : Bool
  cancelled_at : Option Int
  deriving DecidableEq, Repr

namespace UserSubscription

/-- `UserSubscription.clean` (lines 170-184): reject `end_date <=
start_date`, then reject `start_date` in the future. Both date fields are
always present, so the guard `if self.start_date and self.end_date` holds. -/
def clean (s : UserSubscription) (today : Int) : Except VError Unit :=
  if s.end_date ≤ s.start_date then .error ⟨"end_date"⟩
  else if s.start_date > today then .error ⟨"start_date"⟩
  else .ok ()

/-- `UserSubscription.save` (lines 186-211): `full_clean`, then derive
`status`/`is_active` from the date window unless cancelled, then force
`is_active = False` and stamp `cancelled_at` when cancelled. -/
def save (s : UserSubscription) (today now : Int) : Except VError UserSubscription :=
  match s.clean today with
  | .error e => .error e
  | .ok _ =>
    let s1 :=
      if s.status ≠ SubStatus.cancelled then
        if today < s.start_date then
          { s with status := SubStatus.active, is_active := false }
        else if s.start_date ≤ today ∧ today ≤ s.end_date then
          { s with status := SubStatus.active, is_active := true }
        else
          { s with status := SubStatus.expired, is_active := false }
      else s
    let s2 :=
      if s1.status = SubStatus.cancelled then
        { s1 with is_active := false,
                  cancelled_at := if s1.cancelled_at = none then some now else s1.cancelled_at }
      else s1
    .ok s2

/-- `UserSubscription.cancel` (lines 213-220): set the cancelled fields in
memory, then `save()`. -/
def cancel (s : UserSubscription) (today now : Int) : Except VError UserSubscription :=
  save { s with status := SubStatus.cancelled, is_active := false,
                cancelled_at := some now } today now

/-- A chain of further `save()` calls at later moments: fold `save` over a
list of `(today, now)` pairs, propagating a raised `ValidationError`. -/
def saveChain (s : UserSubscription) : List (Int × Int) → Except VError UserSubscription
  | [] => .ok s
  | (t, n) :: rest =>
    match s.save t n with
    | .error e => .error e
    | .ok s1 => s1.saveChain rest

end UserSubscription

/-! ### Vaccinations (`backend/apps/health/models.py`) -/

/-- `Vaccination.STATUS_CHOICES`. -/
inductive VacStatus where
  | pending
  | completed
  | overdue
  | scheduled
  deriving DecidableEq, Repr

/-- The fields of `Vaccination` the claims touch: `due_date` is a non-null
`DateField`, `administered_date` a nullable one. -/
structure Vaccination where
  due_date : Int
  status : VacStatus
  administered_date : Option Int
  deriving DecidableEq, Repr

namespace Vaccination

/-- `Vaccination.clean` (lines 82-97): an `administered_date` may not be in
the future (`due_date` is always present, so the conjunction reduces to the
`administered_date` being set), and `completed` requires an
`administered_date`. -/
def clean (v : Vaccination) (today : Int) : Except VError Unit :=
  match v.administered_date with
  | some d =>
    if d > today then .error ⟨"administered_date"⟩
    else if v.status = VacStatus.completed ∧ v.administered_date = none then
      .error ⟨"administered_date"⟩
    else .ok ()
  | none =>
    if v.status = VacStatus.completed then .error ⟨"administered_date"⟩
    else .ok ()

/-- `Vaccination.save` (lines 99-115): `full_clean`; with no
`administered_date`, a past `due_date` flips a non-completed status to
`overdue` and a no-longer-past one reverts `overdue` to `pending`; an
`administered_date` forces `completed`. -/
def save (v : Vaccination) (today : Int) : Except VError Vaccination :=
  match v.clean today with
  | .error e => .error e
  | .ok _ =>
    let v1 :=
      if v.administered_date = none then
        if v.due_date < today ∧ v.status ≠ VacStatus.completed then
          { v with status := VacStatus.overdue }
        else if v.due_date ≥ today ∧ v.status = VacStatus.overdue then
          { v with status := VacStatus.pending }
        else v
      else v
    let v2 :=
      if v1.administered_date.isSome then { v1 with status := VacStatus.completed }
      else v1
    .ok v2

end Vaccination

/-! ### Pets (`apps/pets/models.py`, `apps/pets/serializers.py`,
`apps/pets/views.py`) -/

/-- The fields of `Pet` the claims touch. `owner` is a non-null FK (a user
id), `age` a nullable positive integer, `microchip_number` a nullable
string, `deleted_at` a nullable timestamp. -/
structure Pet where
  id : Nat
  owner : Nat
  name : String
  age : Option Nat
  date_of_birth : Option Int
  microchip_number : Option String
  is_deleted : Bool
  deleted_at : Option Int
  deriving DecidableEq, Repr

namespace Pet

/-- `Pet.clean` (lines 181-187): normalize a present microchip number with
`strip().upper()`. -/
def clean (p : Pet) : Pet :=
  { p with microchip_number := p.microchip_number.map (fun m => m.trim.toUpper) }

/-- `Pet.save` (lines 189-197): `full_clean` (which runs `clean`), then
compute `age` from `date_of_birth` when `age` is falsy (Python truthiness:
`not self.age` holds for `None` and for `0`). `(today - dob).days // 365`
is Python floor division, `Int.fdiv` here. -/
def save (p : Pet) (today : Int) : Pet :=
  let p1 := p.clean
  if p1.date_of_birth.isSome ∧ (p1.age = none ∨ p1.age = some 0) then
    { p1 with age := (((today - p1.date_of_birth.getD 0).fdiv 365).toNat : Nat) }
  else p1

/-- `Pet.delete` (lines 159-165): soft delete — set the flag, stamp
`deleted_at`, and `save()`. -/
def delete (p : Pet) (today now : Int) : Pet :=
  save { p with is_deleted := true, deleted_at := some now } today

/-- `Pet.restore` (lines 167-173): clear the flag and the timestamp, and
`save()`. -/
def restore (p : Pet) (today : Int) : Pet :=
  save { p with is_deleted := false, deleted_at := none } today

end Pet

/-- `PetManager.get_queryset` (lines 11-15): the default manager filters
`is_deleted=False`. The store is the full `pets` table. -/
def PetManager_get_queryset (store : List Pet) : List Pet :=
  store.filter (fun p => !p.is_deleted)

/-- `PetManager.all_with_deleted` (lines 17-21): the unfiltered table. -/
def PetManager_all_with_deleted (store : List Pet) : List Pet :=
  store

/-- `PetManager.deleted_only` (lines 23-27). -/
def PetManager_deleted_only (store : List Pet) : List Pet :=
  store.filter (fun p => p.is_deleted)

/-- `PetViewSet.get_queryset` (views.py lines 33-42): start from the
default manager (soft-deleted pets excluded), return everything to an
admin, and only the requester's own pets otherwise. -/
def PetViewSet_get_queryset (u : User) (store : List Pet) : List Pet :=
  let queryset := PetManager_get_queryset store
  if u.role = Role.ADMIN then queryset
  else queryset.filter (fun p => p.owner = u.id)

/-- `PetSerializer.Meta.fields` (serializers.py lines 37-55). -/
def PetSerializer_fields : List String :=
  ["id", "owner", "owner_email", "owner_name", "name", "breed", "age",
   "weight", "gender", "pet_type", "date_of_birth", "color",
   "profile_picture", "microchip_number", "notes", "created_at",
   "updated_at"]

/-- `PetSerializer.Meta.read_only_fields` (serializers.py lines 56-62).
Note `owner` is absent from this list. -/
def PetSerializer_read_only_fields : List String :=
  ["id", "owner_email", "owner_name", "created_at", "updated_at"]

/-- A model field is writable through `PetSerializer` when it is declared
and not read-only. -/
def PetSerializer_writable (f : String) : Bool :=
  f ∈ PetSerializer_fields ∧ f ∉ PetSerializer_read_only_fields

/-- The update payload of a PUT/PATCH on a pet, restricted to the fields
the claims touch; `none` means the field is absent from the request body. -/
structure PetUpdatePayload where
  owner : Option Nat
  name : Option String
  deriving DecidableEq, Repr

/-- `serializer.save()` on an existing instance: each writable field
present in the validated payload overwrites the instance attribute, then
`Pet.save` persists. -/
def PetSerializer_update (pet : Pet) (payload : PetUpdatePayload) (today : Int) : Pet :=
  let pet1 :=
    if PetSerializer_writable "owner" then
      { pet with owner := payload.owner.getD pet.owner }
    else pet
  let pet2 :=
    if PetSerializer_writable "name" then
      { pet1 with name := payload.name.getD pet1.name }
    else pet1
  Pet.save pet2 today

/-- `PetViewSet.update` / `partial_update` (views.py lines 81-123) for an
authenticated requester: `get_object` draws from `get_queryset` and
`check_object_permissions` runs `IsOwnerOrAdmin` — a pet instance has an
`owner` attribute, so a non-admin passes only on their own pet; then the
serializer saves the payload. `.error` is the permission denial (403). -/
def PetViewSet_update (requester : User) (pet : Pet) (payload : PetUpdatePayload)
    (today : Int) : Except VError Pet :=
  if IsOwnerOrAdmin_has_object_permission (some requester)
      ⟨some pet.owner, none, none, none⟩ then
    .ok (PetSerializer_update pet payload today)
  else .error ⟨"permission_denied"⟩

/-! ### Registration (`apps/accounts/serializers.py`) and the user destroy
endpoint (`apps/accounts/views.py`) -/

/-- The fields of a registration request body
(`UserRegistrationSerializer.Meta.fields`); `role` is `none` when the
payload omits it (`attrs.get('role', User.Role.USER)`). -/
structure RegistrationPayload where
  email : String
  password : String
  password_confirm : String
  role : Option Role
  deriving DecidableEq, Repr

/-- `BaseUserManager.normalize_email`: strip surrounding whitespace, then
lowercase the domain part after the last `@`; an address without `@` is
returned stripped. Implemented over the character list with structural
operations so that concrete runs reduce. -/
def normalize_email (e : String) : String :=
  let cs := ((e.data.dropWhile Char.isWhitespace).reverse.dropWhile Char.isWhitespace).reverse
  let revDomain := cs.reverse.takeWhile (fun c => c ≠ '@')
  if revDomain.length = cs.length then String.mk cs
  else
    String.mk (cs.take (cs.length - revDomain.length - 1) ++
      '@' :: revDomain.reverse.map Char.toLower)

/-- `UserRegistrationSerializer.validate_email` (lines 45-54): normalize,
then reject a duplicate against the user store. -/
def validate_email (store : List User) (e : String) : Except VError String :=
  let v := normalize_email e
  if store.any (fun u => u.email = v) then .error ⟨"email"⟩
  else .ok v

/-- `UserRegistrationSerializer.validate` (lines 56-75): passwords must
match, and a requested `ADMIN` role is rejected. -/
def UserRegistrationSerializer_validate (p : RegistrationPayload) : Except VError Unit :=
  if p.password ≠ p.password_confirm then .error ⟨"password_confirm"⟩
  else if p.role.getD Role.USER = Role.ADMIN then .error ⟨"role"⟩
  else .ok ()

/-- The registration endpoint (`UserViewSet.create`, views.py lines
67-88): run the serializer's field and object validation, then
`UserRegistrationSerializer.create` (lines 77-83), which overwrites the
role with `USER` and calls `create_user`. On success the new row is
appended to the store; on a validation error nothing is created. -/
def register (store : List User) (p : RegistrationPayload) :
    Except VError (User × List User) :=
  match validate_email store p.email with
  | .error e => .error e
  | .ok email =>
    match UserRegistrationSerializer_validate p with
    | .error e => .error e
    | .ok _ =>
      let u : User :=
        { id := store.length, email := email, role := Role.USER,
          is_active := true, is_veterinarian := false }
      .ok (u, store ++ [u])

/-- `UserViewSet.destroy` (views.py lines 140-158) behind its permission
gate (`get_permissions`, lines 43-53, maps `destroy` to `IsAdmin`): a
non-admin requester is stopped by the permission class (HTTP 403); an
admin deleting themselves gets HTTP 400; otherwise the target row is kept
and merely deactivated (HTTP 200). The returned `Option User` is the
target's row after the request: `some` means the row still exists. -/
def UserViewSet_destroy (requester : User) (target : User) : Nat × Option User :=
  if requester.role ≠ Role.ADMIN then (403, some target)
  else if target.id = requester.id then (400, some target)
  else (200, some { target with is_active := false })

end DogCare

/-! ## Helper lemmas -/

namespace DogCare

/-- `Pet.save` never touches the soft-delete fields: it only normalizes the
microchip number and possibly fills in `age`. -/
theorem Pet_save_preserves_delete_fields (p : Pet) (today : Int) :
    (p.save today).is_deleted = p.is_deleted ∧ (p.save today).deleted_at = p.deleted_at := by
  unfold Pet.save Pet.clean
  dsimp only
  split <;> simp

/-- A `save()` of a record whose status is already `cancelled` keeps the
status, forces `is_active = False`, and keeps an already-set
`cancelled_at`. -/
theorem UserSubscription_save_cancelled (s : UserSubscription) (t n : Int)
    (s' : UserSubscription) (h : s.status = SubStatus.cancelled)
    (hs : s.save t n = .ok s') :
    s'.status = SubStatus.cancelled ∧ s'.is_active = false ∧
    (s.cancelled_at ≠ none → s'.cancelled_at = s.cancelled_at) := by
  unfold UserSubscription.save UserSubscription.clean at hs
  by_cases h1 : s.end_date ≤ s.start_date
  · simp [h1] at hs
  · by_cases h2 : s.start_date > t
    · simp [h1, h2] at hs
    · simp [h1, h2, h] at hs
      subst hs
      refine ⟨rfl, rfl, fun hca => ?_⟩
      simp [hca]

/-- Along any chain of successful `save()` calls, a cancelled, inactive
record stays cancelled and inactive. -/
theorem UserSubscription_saveChain_cancelled (steps : List (Int × Int)) :
    ∀ s s' : UserSubscription, s.status = SubStatus.cancelled → s.is_active = false →
      s.saveChain steps = .ok s' →
      s'.status = SubStatus.cancelled ∧ s'.is_active = false := by
  induction steps with
  | nil =>
    intro s s' h1 h2 hc
    unfold UserSubscription.saveChain at hc
    simp at hc
    subst hc
    exact ⟨h1, h2⟩
  | cons st rest ih =>
    intro s s' h1 h2 hc
    obtain ⟨t, n⟩ := st
    unfold UserSubscription.saveChain at hc
    cases hsv : s.save t n with
    | error e => rw [hsv] at hc; cases hc
    | ok s1 =>
      rw [hsv] at hc
      obtain ⟨hst, hia, _⟩ := UserSubscription_save_cancelled s t n s1 h1 hsv
      exact ih s1 s' hst hia hc

end DogCare

/-! ## Claims -/

namespace DogCare

/-- C1: the claim as stated is false — `IsOwnerOrAdmin` also grants access
through a `created_by` attribute: a non-admin requester (id 1) is granted
access to an object whose only owning reference is `created_by = 1`, while
the claimed condition (admin, or `owner`/`user`/`pet.owner` equal to the
requester) does not hold there. -/
theorem C1_ownership_check_counterexample :
    IsOwnerOrAdmin_has_object_permission
      (some ⟨1, "user1@x", Role.USER, true, false⟩) ⟨none, none, some 1, none⟩ = true ∧
    ¬ specOwnershipGrant ⟨1, "user1@x", Role.USER, true, false⟩ ⟨none, none, some 1, none⟩ := by
  decide

/-- C1 (amended): for an authenticated requester, `IsOwnerOrAdmin` grants
access iff the requester is an admin or the first attribute present among
`owner`, `user`, `created_by` references the requester; `IsPetOwnerOrAdmin`
grants iff the requester is an admin or the first attribute present among
`pet` (compared through the pet's owner) and `owner` references the
requester; both checks deny every unauthenticated request. -/
theorem C1_ownership_check_amended (u : User) (obj : PermObj) :
    (IsOwnerOrAdmin_has_object_permission (some u) obj = true ↔
      (u.role = Role.ADMIN ∨
        (obj.owner.orElse fun _ => obj.user.orElse fun _ => obj.created_by) = some u.id)) ∧
    (IsPetOwnerOrAdmin_has_object_permission (some u) obj = true ↔
      (u.role = Role.ADMIN ∨
        ((obj.pet.map PetRef.owner).orElse fun _ => obj.owner) = some u.id)) ∧
    IsOwnerOrAdmin_has_object_permission none obj = false ∧
    IsPetOwnerOrAdmin_has_object_permission none obj = false := by
  refine ⟨?_, ?_, rfl, rfl⟩ <;>
  · rcases obj with ⟨o, us, cb, pt⟩
    by_cases hA : u.role = Role.ADMIN
    · simp [IsOwnerOrAdmin_has_object_permission, IsPetOwnerOrAdmin_has_object_permission, hA]
    · cases o <;> cases us <;> cases cb <;> cases pt <;>
        simp [IsOwnerOrAdmin_has_object_permission, IsPetOwnerOrAdmin_has_object_permission,
          hA, Option.orElse]

/-- C2: a subscription whose status is not `cancelled`, once successfully
saved, is `active` with `is_active = True` when `start_date <= today <=
end_date`, and `expired` with `is_active = False` otherwise. -/
theorem C2_subscription_status_window (s : UserSubscription) (today now : Int)
    (s' : UserSubscription) (hc : s.status ≠ SubStatus.cancelled)
    (hs : s.save today now = .ok s') :
    (s.start_date ≤ today ∧ today ≤ s.end_date →
      s'.status = SubStatus.active ∧ s'.is_active = true) ∧
    (¬ (s.start_date ≤ today ∧ today ≤ s.end_date) →
      s'.status = SubStatus.expired ∧ s'.is_active = false) := by
  unfold UserSubscription.save UserSubscription.clean at hs
  by_cases h1 : s.end_date ≤ s.start_date
  · simp [h1] at hs
  · by_cases h2 : s.start_date > today
    · simp [h1, h2] at hs
    · have h3 : ¬ today < s.start_date := by omega
      by_cases h4 : s.start_date ≤ today ∧ today ≤ s.end_date
      · simp [h1, h2, h3, h4, hc] at hs
        subst hs
        exact ⟨fun _ => ⟨rfl, rfl⟩, fun hcon => absurd h4 hcon⟩
      · simp [h1, h2, h3, h4, hc] at hs
        subst hs
        exact ⟨fun hcon => absurd hcon h4, fun _ => ⟨rfl, rfl⟩⟩

/-- C2 witness: a subscription saved inside its window on 2024-day-5. -/
theorem C2_subscription_status_window_witness :
    ((⟨0, 0, 10, SubStatus.active, false, none⟩ : UserSubscription).status ≠
      SubStatus.cancelled) ∧
    ((⟨0, 0, 10, SubStatus.active, false, none⟩ : UserSubscription).save 5 5 =
      .ok ⟨0, 0, 10, SubStatus.active, true, none⟩) ∧
    ((((⟨0, 0, 10, SubStatus.active, false, none⟩ : UserSubscription).start_date ≤ 5 ∧
        (5 : Int) ≤ (⟨0, 0, 10, SubStatus.active, false, none⟩ : UserSubscription).end_date) →
      (⟨0, 0, 10, SubStatus.active, true, none⟩ : UserSubscription).status = SubStatus.active ∧
      (⟨0, 0, 10, SubStatus.active, true, none⟩ : UserSubscription).is_active = true) ∧
     (¬ ((⟨0, 0, 10, SubStatus.active, false, none⟩ : UserSubscription).start_date ≤ 5 ∧
        (5 : Int) ≤ (⟨0, 0, 10, SubStatus.active, false, none⟩ : UserSubscription).end_date) →
      (⟨0, 0, 10, SubStatus.active, true, none⟩ : UserSubscription).status = SubStatus.expired ∧
      (⟨0, 0, 10, SubStatus.active, true, none⟩ : UserSubscription).is_active = false)) :=
  ⟨by decide, by decide,
   C2_subscription_status_window ⟨0, 0, 10, SubStatus.active, false, none⟩ 5 5
     ⟨0, 0, 10, SubStatus.active, true, none⟩ (by decide) (by decide)⟩

/-- C3: after a successful vaccination save, a set `administered_date`
forces `completed` whatever the prior status was; with no
`administered_date`, a past `due_date` turns a not-completed status into
`overdue`, and a prior `overdue` reverts to `pending` once `due_date` is
no longer past. -/
theorem C3_vaccination_status (v : Vaccination) (today : Int) (v' : Vaccination)
    (hs : v.save today = .ok v') :
    (v.administered_date.isSome = true → v'.status = VacStatus.completed) ∧
    (v.administered_date = none → v.due_date < today → v.status ≠ VacStatus.completed →
      v'.status = VacStatus.overdue) ∧
    (v.administered_date = none → v.status = VacStatus.overdue → today ≤ v.due_date →
      v'.status = VacStatus.pending) := by
  unfold Vaccination.save Vaccination.clean at hs
  cases had : v.administered_date with
  | some d =>
    rw [had] at hs
    by_cases h1 : d > today
    · simp [h1] at hs
    · simp [h1, had] at hs
      subst hs
      exact ⟨fun _ => rfl, fun hn => Option.noConfusion hn, fun hn => Option.noConfusion hn⟩
  | none =>
    rw [had] at hs
    by_cases h0 : v.status = VacStatus.completed
    · simp [h0] at hs
    · by_cases h1 : v.due_date < today
      · simp [h0, h1, had] at hs
        subst hs
        refine ⟨fun hsome => ?_, fun _ _ _ => rfl, fun _ _ hle => ?_⟩
        · simp at hsome
        · omega
      · have h1g : v.due_date ≥ today := by omega
        by_cases h2 : v.status = VacStatus.overdue
        · simp [h0, h1, h1g, h2, had] at hs
          subst hs
          refine ⟨fun hsome => ?_, fun _ hlt _ => absurd hlt h1, fun _ _ _ => rfl⟩
          simp at hsome
        · simp [h0, h1, h1g, h2, had] at hs
          subst hs
          refine ⟨fun hsome => ?_, fun _ hlt _ => absurd hlt h1, fun _ hov _ => absurd hov h2⟩
          simp at hsome

/-- C3 witness: a pending vaccination whose due date has passed becomes
overdue. -/
theorem C3_vaccination_status_witness :
    ((⟨3, VacStatus.pending, none⟩ : Vaccination).save 5 =
      .ok ⟨3, VacStatus.overdue, none⟩) ∧
    (((⟨3, VacStatus.pending, none⟩ : Vaccination).administered_date.isSome = true →
      (⟨3, VacStatus.overdue, none⟩ : Vaccination).status = VacStatus.completed) ∧
     ((⟨3, VacStatus.pending, none⟩ : Vaccination).administered_date = none →
      (⟨3, VacStatus.pending, none⟩ : Vaccination).due_date < 5 →
      (⟨3, VacStatus.pending, none⟩ : Vaccination).status ≠ VacStatus.completed →
      (⟨3, VacStatus.overdue, none⟩ : Vaccination).status = VacStatus.overdue) ∧
     ((⟨3, VacStatus.pending, none⟩ : Vaccination).administered_date = none →
      (⟨3, VacStatus.pending, none⟩ : Vaccination).status = VacStatus.overdue →
      (5 : Int) ≤ (⟨3, VacStatus.pending, none⟩ : Vaccination).due_date →
      (⟨3, VacStatus.overdue, none⟩ : Vaccination).status = VacStatus.pending)) :=
  ⟨by decide,
   C3_vaccination_status ⟨3, VacStatus.pending, none⟩ 5 ⟨3, VacStatus.overdue, none⟩ (by decide)⟩

end DogCare

namespace DogCare

/-- C4: the code violates the claimed invariant. `PetSerializer` declares
`owner` among its fields but not among its `read_only_fields`, so the
update endpoint writes a client-supplied `owner`: the non-admin user 1,
updating their own pet 10 with a payload carrying `owner = 2`, succeeds
and leaves the pet owned by user 2. -/
theorem C4_owner_update_bug :
    Role.USER ≠ Role.ADMIN ∧
    PetSerializer_writable "owner" = true ∧
    PetViewSet_update ⟨1, "user1@x", Role.USER, true, false⟩
      ⟨10, 1, "Rex", none, none, none, false, none⟩ ⟨some 2, none⟩ 0 =
      .ok ⟨10, 2, "Rex", none, none, none, false, none⟩ := by
  decide

/-- C5: a non-admin's pet list queryset only ever contains pets whose
owner is the requester. -/
theorem C5_pet_list_isolation (u : User) (store : List Pet) (p : Pet)
    (hA : u.role ≠ Role.ADMIN) (hp : p ∈ PetViewSet_get_queryset u store) :
    p.owner = u.id := by
  unfold PetViewSet_get_queryset PetManager_get_queryset at hp
  simp [hA, List.mem_filter] at hp
  exact hp.2.1

/-- C5 witness: a non-admin user 1 listing over a store holding their own
pet and another user's pet. -/
theorem C5_pet_list_isolation_witness :
    ((⟨1, "user1@x", Role.USER, true, false⟩ : User).role ≠ Role.ADMIN) ∧
    ((⟨10, 1, "Rex", none, none, none, false, none⟩ : Pet) ∈
      PetViewSet_get_queryset ⟨1, "user1@x", Role.USER, true, false⟩
        [⟨10, 1, "Rex", none, none, none, false, none⟩,
         ⟨11, 2, "Yip", none, none, none, false, none⟩]) ∧
    (⟨10, 1, "Rex", none, none, none, false, none⟩ : Pet).owner =
      (⟨1, "user1@x", Role.USER, true, false⟩ : User).id :=
  ⟨by decide, by decide,
   C5_pet_list_isolation ⟨1, "user1@x", Role.USER, true, false⟩
     [⟨10, 1, "Rex", none, none, none, false, none⟩,
      ⟨11, 2, "Yip", none, none, none, false, none⟩]
     ⟨10, 1, "Rex", none, none, none, false, none⟩ (by decide) (by decide)⟩

/-- C6: `delete()` marks the pet deleted and stamps `deleted_at`, after
which it is absent from every default-manager queryset yet still present
through `all_with_deleted`; `restore()` clears both fields and the pet is
again selected by the default manager. -/
theorem C6_soft_delete_roundtrip (p : Pet) (today now later : Int) (store : List Pet) :
    (p.delete today now).is_deleted = true ∧
    (p.delete today now).deleted_at = some now ∧
    (p.delete today now) ∉ PetManager_get_queryset store ∧
    ((p.delete today now) ∈ store →
      (p.delete today now) ∈ PetManager_all_with_deleted store) ∧
    ((p.delete today now).restore later).is_deleted = false ∧
    ((p.delete today now).restore later).deleted_at = none ∧
    (((p.delete today now).restore later) ∈ store →
      ((p.delete today now).restore later) ∈ PetManager_get_queryset store) := by
  have hdel1 : (p.delete today now).is_deleted = true := by
    unfold Pet.delete
    rw [(Pet_save_preserves_delete_fields _ _).1]
  have hdel2 : (p.delete today now).deleted_at = some now := by
    unfold Pet.delete
    rw [(Pet_save_preserves_delete_fields _ _).2]
  have hres1 : ((p.delete today now).restore later).is_deleted = false := by
    unfold Pet.restore
    rw [(Pet_save_preserves_delete_fields _ _).1]
  have hres2 : ((p.delete today now).restore later).deleted_at = none := by
    unfold Pet.restore
    rw [(Pet_save_preserves_delete_fields _ _).2]
  refine ⟨hdel1, hdel2, ?_, fun h => h, hres1, hres2, ?_⟩
  · intro hmem
    unfold PetManager_get_queryset at hmem
    rw [List.mem_filter, hdel1] at hmem
    simp at hmem
  · intro hmem
    unfold PetManager_get_queryset
    rw [List.mem_filter, hres1]
    exact ⟨hmem, rfl⟩

/-- C6 witness: a concrete pet deleted at time 7 and restored at time 9,
checked against the singleton stores holding it. -/
theorem C6_soft_delete_roundtrip_witness :
    ((⟨10, 1, "Rex", none, none, none, false, none⟩ : Pet).delete 0 7) ∉
      PetManager_get_queryset
        [(⟨10, 1, "Rex", none, none, none, false, none⟩ : Pet).delete 0 7] ∧
    ((⟨10, 1, "Rex", none, none, none, false, none⟩ : Pet).delete 0 7) ∈
      PetManager_all_with_deleted
        [(⟨10, 1, "Rex", none, none, none, false, none⟩ : Pet).delete 0 7] ∧
    (((⟨10, 1, "Rex", none, none, none, false, none⟩ : Pet).delete 0 7).restore 9) ∈
      PetManager_get_queryset
        [((⟨10, 1, "Rex", none, none, none, false, none⟩ : Pet).delete 0 7).restore 9] :=
  ⟨(C6_soft_delete_roundtrip ⟨10, 1, "Rex", none, none, none, false, none⟩ 0 7 9
      [(⟨10, 1, "Rex", none, none, none, false, none⟩ : Pet).delete 0 7]).2.2.1,
   (C6_soft_delete_roundtrip ⟨10, 1, "Rex", none, none, none, false, none⟩ 0 7 9
      [(⟨10, 1, "Rex", none, none, none, false, none⟩ : Pet).delete 0 7]).2.2.2.1
     (by simp),
   (C6_soft_delete_roundtrip ⟨10, 1, "Rex", none, none, none, false, none⟩ 0 7 9
      [((⟨10, 1, "Rex", none, none, none, false, none⟩ : Pet).delete 0 7).restore 9]).2.2.2.2.2.2
     (by simp)⟩

end DogCare

namespace DogCare

/-- C7: a successful `cancel()` leaves the subscription cancelled and
inactive with `cancelled_at` stamped, and no chain of later successful
`save()` calls ever moves the status away from `cancelled` or turns
`is_active` back on. -/
theorem C7_cancel_is_one_way (s : UserSubscription) (t0 n0 : Int)
    (s1 : UserSubscription) (steps : List (Int × Int)) (s2 : UserSubscription)
    (hc : s.cancel t0 n0 = .ok s1) (hchain : s1.saveChain steps = .ok s2) :
    s1.status = SubStatus.cancelled ∧ s1.is_active = false ∧
    s1.cancelled_at = some n0 ∧
    s2.status = SubStatus.cancelled ∧ s2.is_active = false := by
  unfold UserSubscription.cancel at hc
  obtain ⟨h1, h2, h3⟩ := UserSubscription_save_cancelled _ t0 n0 s1 rfl hc
  have hca : s1.cancelled_at = some n0 := h3 (by simp)
  obtain ⟨h4, h5⟩ := UserSubscription_saveChain_cancelled steps s1 s2 h1 h2 hchain
  exact ⟨h1, h2, hca, h4, h5⟩

/-- C7 witness: a live subscription cancelled on day 5 and saved again on
day 20. -/
theorem C7_cancel_is_one_way_witness :
    ((⟨0, 0, 10, SubStatus.active, true, none⟩ : UserSubscription).cancel 5 5 =
      .ok ⟨0, 0, 10, SubStatus.cancelled, false, some 5⟩) ∧
    ((⟨0, 0, 10, SubStatus.cancelled, false, some 5⟩ : UserSubscription).saveChain [(20, 20)] =
      .ok ⟨0, 0, 10, SubStatus.cancelled, false, some 5⟩) ∧
    ((⟨0, 0, 10, SubStatus.cancelled, false, some 5⟩ : UserSubscription).status =
        SubStatus.cancelled ∧
      (⟨0, 0, 10, SubStatus.cancelled, false, some 5⟩ : UserSubscription).is_active = false ∧
      (⟨0, 0, 10, SubStatus.cancelled, false, some 5⟩ : UserSubscription).cancelled_at = some 5 ∧
      (⟨0, 0, 10, SubStatus.cancelled, false, some 5⟩ : UserSubscription).status =
        SubStatus.cancelled ∧
      (⟨0, 0, 10, SubStatus.cancelled, false, some 5⟩ : UserSubscription).is_active = false) :=
  ⟨by decide, by decide,
   C7_cancel_is_one_way ⟨0, 0, 10, SubStatus.active, true, none⟩ 5 5
     ⟨0, 0, 10, SubStatus.cancelled, false, some 5⟩ [(20, 20)]
     ⟨0, 0, 10, SubStatus.cancelled, false, some 5⟩ (by decide) (by decide)⟩

/-- C8: a registration payload requesting the ADMIN role is rejected with
a validation error and creates nothing, and every user the registration
endpoint does create carries the USER role (and is appended to the store). -/
theorem C8_registration_rejects_admin (store : List User) (p : RegistrationPayload) :
    (p.role = some Role.ADMIN → ∃ e, register store p = .error e) ∧
    (∀ u store2, register store p = .ok (u, store2) →
      u.role = Role.USER ∧ store2 = store ++ [u]) := by
  constructor
  · intro hrole
    unfold register
    cases hve : validate_email store p.email with
    | error e => exact ⟨e, rfl⟩
    | ok em =>
      unfold UserRegistrationSerializer_validate
      by_cases hpw : p.password ≠ p.password_confirm
      · simp [hpw]
      · simp [hpw, hrole]
  · intro u store2 hok
    unfold register at hok
    cases hve : validate_email store p.email with
    | error e => rw [hve] at hok; cases hok
    | ok em =>
      rw [hve] at hok
      cases hv : UserRegistrationSerializer_validate p with
      | error e => rw [hv] at hok; cases hok
      | ok _ =>
        rw [hv] at hok
        simp at hok
        obtain ⟨hu, hst⟩ := hok
        subst hu
        subst hst
        exact ⟨rfl, rfl⟩

/-- C8 witness: the payload asking for ADMIN fails; the same payload with
no role creates a USER-role account appended to the empty store. -/
theorem C8_registration_rejects_admin_witness :
    (∃ e, register [] ⟨"a@B", "pw", "pw", some Role.ADMIN⟩ = .error e) ∧
    ((⟨0, "a@b", Role.USER, true, false⟩ : User).role = Role.USER ∧
      [(⟨0, "a@b", Role.USER, true, false⟩ : User)] =
        [] ++ [(⟨0, "a@b", Role.USER, true, false⟩ : User)]) :=
  ⟨(C8_registration_rejects_admin [] ⟨"a@B", "pw", "pw", some Role.ADMIN⟩).1 rfl,
   (C8_registration_rejects_admin [] ⟨"a@B", "pw", "pw", none⟩).2
     ⟨0, "a@b", Role.USER, true, false⟩ [⟨0, "a@b", Role.USER, true, false⟩] (by decide)⟩

end DogCare

namespace DogCare

/-- C9: the claim as stated is false — the destroy action is gated by
`IsAdmin`, so a non-admin user (role USER, id 1) asking to delete their
own account is answered 403 by the permission layer, not the claimed 400
(the account is indeed unchanged). -/
theorem C9_self_delete_counterexample :
    (UserViewSet_destroy ⟨1, "u@x", Role.USER, true, false⟩
        ⟨1, "u@x", Role.USER, true, false⟩).1 = 403 ∧
    (403 : Nat) ≠ 400 ∧
    (UserViewSet_destroy ⟨1, "u@x", Role.USER, true, false⟩
        ⟨1, "u@x", Role.USER, true, false⟩).2 =
      some ⟨1, "u@x", Role.USER, true, false⟩ := by
  decide

/-- C9 (amended): a non-admin's destroy request is rejected with HTTP 403
by the `IsAdmin` permission gate, leaving the target untouched; an admin
deleting their own account gets HTTP 400 with the account unchanged; an
admin deleting a different user gets HTTP 200, and the target's row is
kept with only `is_active` flipped to `False`. -/
theorem C9_destroy_amended (requester target : User) :
    (requester.role ≠ Role.ADMIN →
      UserViewSet_destroy requester target = (403, some target)) ∧
    (requester.role = Role.ADMIN → target.id = requester.id →
      UserViewSet_destroy requester target = (400, some target)) ∧
    (requester.role = Role.ADMIN → target.id ≠ requester.id →
      UserViewSet_destroy requester target =
        (200, some { target with is_active := false })) := by
  unfold UserViewSet_destroy
  refine ⟨fun h => by simp [h], fun h1 h2 => by simp [h1, h2], fun h1 h2 => by simp [h1, h2]⟩

/-- C9 witness: the three endpoint outcomes at concrete users — non-admin
self-delete (403), admin self-delete (400), admin deleting user 2 (200
with a deactivated but present row). -/
theorem C9_destroy_amended_witness :
    (UserViewSet_destroy ⟨1, "u@x", Role.USER, true, false⟩
        ⟨1, "u@x", Role.USER, true, false⟩ =
      (403, some ⟨1, "u@x", Role.USER, true, false⟩)) ∧
    (UserViewSet_destroy ⟨3, "adm@x", Role.ADMIN, true, false⟩
        ⟨3, "adm@x", Role.ADMIN, true, false⟩ =
      (400, some ⟨3, "adm@x", Role.ADMIN, true, false⟩)) ∧
    (UserViewSet_destroy ⟨3, "adm@x", Role.ADMIN, true, false⟩
        ⟨2, "u2@x", Role.USER, true, false⟩ =
      (200, some ⟨2, "u2@x", Role.USER, false, false⟩)) :=
  ⟨(C9_destroy_amended ⟨1, "u@x", Role.USER, true, false⟩
      ⟨1, "u@x", Role.USER, true, false⟩).1 (by decide),
   (C9_destroy_amended ⟨3, "adm@x", Role.ADMIN, true, false⟩
      ⟨3, "adm@x", Role.ADMIN, true, false⟩).2.1 rfl rfl,
   (C9_destroy_amended ⟨3, "adm@x", Role.ADMIN, true, false⟩
      ⟨2, "u2@x", Role.USER, true, false⟩).2.2 rfl (by decide)⟩

/-- C10: the claim as stated is false in one corner — with `start_date = 5
> today = 2` but `end_date = 3 <= start_date`, `save()` raises the
`end_date`-keyed validation error (that check runs first), not one keyed
`start_date`. -/
theorem C10_error_key_counterexample :
    (⟨0, 5, 3, SubStatus.active, true, none⟩ : UserSubscription).start_date > (2 : Int) ∧
    (⟨0, 5, 3, SubStatus.active, true, none⟩ : UserSubscription).save 2 2 =
      .error ⟨"end_date"⟩ ∧
    (⟨"end_date"⟩ : VError) ≠ (⟨"start_date"⟩ : VError) := by
  decide

/-- C10 (amended): when `start_date > today`, `save()` raises a
`ValidationError` — keyed `start_date` when `end_date > start_date`, and
`end_date` otherwise — and persists nothing; hence every successfully
saved subscription has `start_date <= today`, the `today < start_date`
branch of `save()` is unreachable, and a persisted record with status
`active` always has `is_active = True`. -/
theorem C10_future_start_amended (s : UserSubscription) (today now : Int) :
    (s.start_date > today →
      s.save today now =
        .error (if s.end_date ≤ s.start_date then ⟨"end_date"⟩ else ⟨"start_date"⟩)) ∧
    (∀ s', s.save today now = .ok s' → s.start_date ≤ today) ∧
    (∀ s', s.save today now = .ok s' →
      s'.status = SubStatus.active → s'.is_active = true) := by
  refine ⟨?_, ?_, ?_⟩
  · intro hfut
    unfold UserSubscription.save UserSubscription.clean
    by_cases h1 : s.end_date ≤ s.start_date
    · simp [h1]
    · simp [h1, hfut]
  · intro s' hs
    unfold UserSubscription.save UserSubscription.clean at hs
    by_cases h1 : s.end_date ≤ s.start_date
    · simp [h1] at hs
    · by_cases h2 : s.start_date > today
      · simp [h1, h2] at hs
      · omega
  · intro s' hs hact
    unfold UserSubscription.save UserSubscription.clean at hs
    by_cases h1 : s.end_date ≤ s.start_date
    · simp [h1] at hs
    · by_cases h2 : s.start_date > today
      · simp [h1, h2] at hs
      · have h3 : ¬ today < s.start_date := by omega
        by_cases hc : s.status = SubStatus.cancelled
        · simp [h1, h2, hc] at hs
          subst hs
          simp [hc] at hact
        · by_cases h4 : s.start_date ≤ today ∧ today ≤ s.end_date
          · simp [h1, h2, h3, h4, hc] at hs
            subst hs
            rfl
          · simp [h1, h2, h3, h4, hc] at hs
            subst hs
            simp at hact

/-- C10 witness: a future-dated valid range raises the `start_date` error;
an in-window record saves with `start_date <= today` and, being `active`,
has `is_active = True`. -/
theorem C10_future_start_amended_witness :
    ((⟨0, 5, 10, SubStatus.active, true, none⟩ : UserSubscription).save 2 2 =
      .error (if (10 : Int) ≤ 5 then ⟨"end_date"⟩ else ⟨"start_date"⟩)) ∧
    ((0 : Int) ≤ 5) ∧
    ((⟨0, 0, 10, SubStatus.active, true, none⟩ : UserSubscription).is_active = true) :=
  ⟨(C10_future_start_amended ⟨0, 5, 10, SubStatus.active, true, none⟩ 2 2).1 (by decide),
   (C10_future_start_amended ⟨0, 0, 10, SubStatus.active, false, none⟩ 5 5).2.1
     ⟨0, 0, 10, SubStatus.active, true, none⟩ (by decide),
   (C10_future_start_amended ⟨0, 0, 10, SubStatus.active, false, none⟩ 5 5).2.2
     ⟨0, 0, 10, SubStatus.active, true, none⟩ (by decide) rfl⟩

end DogCare
